import Mathlib

/-!
Shallow embedding of `programs/kamiyo-fast-voting/src/lib.rs`, a time-boxed
voting program.  Machine integers are modelled as `Nat` with explicit range
checks where the source uses `checked_add` / `checked_mul` / `checked_div`
on `u32` / `u64`.  Opaque 32-byte values (hashes, commitments) and public
keys are modelled as `Nat`, with `0` standing for the all-zero array that
the source treats as invalid.  Each instruction handler becomes a pure
function returning `Except FastVoteError _`; a failing call returns no
successor record, mirroring the fact that a failed transaction leaves the
account unchanged.  Storage-level duplicate-key rejection (Anchor `init`)
is an external collaborator and is not part of these handlers; the
creator-identity constraint on `CancelAction` is in the source
(`constraint = fast_action.creator == creator.key() @ Unauthorized`) and is
modelled as the first check of `cancel_action`, since Anchor evaluates
account constraints before the handler body runs.
-/

/-- Voting window: ~30 seconds at 400ms/slot (`VOTING_WINDOW_SLOTS` in the source). -/
def VOTING_WINDOW_SLOTS : Nat := 75

/-- Quorum requirement (`MIN_VOTES_FOR_QUORUM` in the source). -/
def MIN_VOTES_FOR_QUORUM : Nat := 2

/-- Max votes per action (`MAX_VOTES_PER_ACTION` in the source). -/
def MAX_VOTES_PER_ACTION : Nat := 10000

/-- Largest value representable in a `u32`. -/
def U32_MAX : Nat := 4294967295

/-- Largest value representable in a `u64`. -/
def U64_MAX : Nat := 18446744073709551615

/-- Rust `u32::checked_add` on `Nat` values already known to be in `u32` range. -/
def u32_checked_add (a b : Nat) : Option Nat :=
  if a + b ≤ U32_MAX then some (a + b) else none

/-- Rust `u64::checked_add` on `Nat` values already known to be in `u64` range. -/
def u64_checked_add (a b : Nat) : Option Nat :=
  if a + b ≤ U64_MAX then some (a + b) else none

/-- Rust `u64::checked_mul`. -/
def u64_checked_mul (a b : Nat) : Option Nat :=
  if a * b ≤ U64_MAX then some (a * b) else none

/-- Rust `u64::checked_div`: `none` exactly when the divisor is zero. -/
def u64_checked_div (a b : Nat) : Option Nat :=
  if b = 0 then none else some (a / b)

/-- The `VoteResult` enum of the source. -/
inductive VoteResult where
  | Pending
  | Passed
  | Failed
  | Cancelled
deriving DecidableEq, Repr

/-- The `FastVoteError` error enum of the source. -/
inductive FastVoteError where
  | InvalidThreshold
  | InvalidActionHash
  | SlotOverflow
  | InvalidPda
  | VotingEnded
  | VotingNotEnded
  | ActionAlreadyExecuted
  | VoteOverflow
  | MaxVotesReached
  | InvalidVoterCommitment
  | QuorumNotMet
  | Unauthorized
  | InvalidMagicBlockProgram
  | InvalidMagicContext
deriving DecidableEq, Repr

/-- The `FastAction` account of the source.  `action_hash`, `description_hash`
and `creator` are opaque 32-byte / key values modelled as `Nat`. -/
structure FastAction where
  action_id : Nat
  action_hash : Nat
  description_hash : Nat
  creator : Nat
  threshold : Nat
  votes_for : Nat
  votes_against : Nat
  vote_count : Nat
  created_slot : Nat
  deadline_slot : Nat
  executed : Bool
  result : VoteResult
  bump : Nat
deriving DecidableEq, Repr

/-- The `FastVote` account of the source. -/
structure FastVote where
  fast_action : Nat
  voter : Nat
  voter_commitment : Nat
  vote_value : Bool
  voted_slot : Nat
  bump : Nat
deriving DecidableEq, Repr

/-- Handler `create_fast_action` (lib.rs lines 29-69).  `now` is `clock.slot`
and `creator` / `bump` come from the validated accounts. -/
def create_fast_action (action_id action_hash : Nat) (threshold : Nat)
    (description_hash creator now bump : Nat) : Except FastVoteError FastAction :=
  if ¬ (threshold > 0 ∧ threshold ≤ 100) then .error .InvalidThreshold
  else if action_hash = 0 then .error .InvalidActionHash
  else
    match u64_checked_add now VOTING_WINDOW_SLOTS with
    | none => .error .SlotOverflow
    | some deadline_slot =>
        .ok { action_id := action_id
              action_hash := action_hash
              description_hash := description_hash
              creator := creator
              threshold := threshold
              votes_for := 0
              votes_against := 0
              vote_count := 0
              created_slot := now
              deadline_slot := deadline_slot
              executed := false
              result := .Pending
              bump := bump }

/-- Handler `vote_fast` (lib.rs lines 93-129).  `actionKey` is the action
account's address (used only to populate the vote record), `now` is
`clock.slot`, and `bump` is the vote account's bump. -/
def vote_fast (action : FastAction) (actionKey voter : Nat) (vote_value : Bool)
    (voter_commitment now bump : Nat) : Except FastVoteError (FastAction × FastVote) :=
  if action.executed then .error .ActionAlreadyExecuted
  else if ¬ (now ≤ action.deadline_slot) then .error .VotingEnded
  else if ¬ (action.vote_count < MAX_VOTES_PER_ACTION) then .error .MaxVotesReached
  else if voter_commitment = 0 then .error .InvalidVoterCommitment
  else
    let vote : FastVote :=
      { fast_action := actionKey
        voter := voter
        voter_commitment := voter_commitment
        vote_value := vote_value
        voted_slot := now
        bump := bump }
    match (if vote_value then u32_checked_add action.votes_for 1
           else u32_checked_add action.votes_against 1) with
    | none => .error .VoteOverflow
    | some n =>
        let action1 := if vote_value then { action with votes_for := n }
                       else { action with votes_against := n }
        match u32_checked_add action1.vote_count 1 with
        | none => .error .VoteOverflow
        | some c => .ok ({ action1 with vote_count := c }, vote)

/-- Handler `tally_and_commit` (lib.rs lines 131-176).  The external
commit-and-undelegate handoff is out of scope (an external collaborator);
the handler's state computation is modelled in full. -/
def tally_and_commit (action : FastAction) (now : Nat) : Except FastVoteError FastAction :=
  if action.executed then .error .ActionAlreadyExecuted
  else if ¬ (now > action.deadline_slot) then .error .VotingNotEnded
  else if ¬ (action.vote_count ≥ MIN_VOTES_FOR_QUORUM) then .error .QuorumNotMet
  else
    match u32_checked_add action.votes_for action.votes_against with
    | none => .error .VoteOverflow
    | some total_votes =>
        if ¬ (total_votes > 0) then .error .QuorumNotMet
        else
          match u64_checked_mul action.votes_for 100 with
          | none => .error .VoteOverflow
          | some m =>
              match u64_checked_div m total_votes with
              | none => .error .VoteOverflow
              | some approval_pct =>
                  .ok { action with
                        result := if approval_pct ≥ action.threshold then .Passed
                                  else .Failed
                        executed := true }

/-- Handler `cancel_action` (lib.rs lines 178-191) together with the
`CancelAction` accounts constraint (lib.rs line 313): Anchor validates
`fast_action.creator == creator.key() @ Unauthorized` while building the
context, before the handler body's `executed` check runs. -/
def cancel_action (action : FastAction) (caller : Nat) : Except FastVoteError FastAction :=
  if ¬ (action.creator = caller) then .error .Unauthorized
  else if action.executed then .error .ActionAlreadyExecuted
  else .ok { action with executed := true, result := .Cancelled }

/-- One successful state-mutating step on a `FastAction` record. -/
inductive Step : FastAction → FastAction → Prop where
  | vote (a a' : FastAction) (actionKey voter voter_commitment now bump : Nat)
      (vote_value : Bool) (vr : FastVote)
      (h : vote_fast a actionKey voter vote_value voter_commitment now bump =
        Except.ok (a', vr)) : Step a a'
  | tally (a a' : FastAction) (now : Nat)
      (h : tally_and_commit a now = Except.ok a') : Step a a'
  | cancel (a a' : FastAction) (caller : Nat)
      (h : cancel_action a caller = Except.ok a') : Step a a'

/-- Action records the program can produce: created by `create_fast_action`
and then mutated by any sequence of successful operations. -/
inductive Reachable : FastAction → Prop where
  | created (a : FastAction) (action_id action_hash threshold description_hash creator now bump : Nat)
      (h : create_fast_action action_id action_hash threshold description_hash creator now bump =
        Except.ok a) : Reachable a
  | step (a a' : FastAction) (hr : Reachable a) (hs : Step a a') : Reachable a'

/-- A sequence of successful `vote_fast` calls against one action record,
recording only the boolean vote values; voters, commitments, slots and keys
may vary freely from call to call. -/
inductive CastSeq : FastAction → List Bool → FastAction → Prop where
  | nil (a : FastAction) : CastSeq a [] a
  | cons (a a' b : FastAction) (v : Bool) (l : List Bool)
      (actionKey voter voter_commitment now bump : Nat) (vr : FastVote)
      (h : vote_fast a actionKey voter v voter_commitment now bump = Except.ok (a', vr))
      (rest : CastSeq a' l b) : CastSeq a (v :: l) b

/-- Concrete record produced by `create_fast_action 1 7 50 9 11 0 255`. -/
def act0 : FastAction :=
  { action_id := 1, action_hash := 7, description_hash := 9, creator := 11,
    threshold := 50, votes_for := 0, votes_against := 0, vote_count := 0,
    created_slot := 0, deadline_slot := 75, executed := false,
    result := .Pending, bump := 255 }

/-- Concrete record: `act0` after one successful "for" vote. -/
def act1 : FastAction :=
  { act0 with votes_for := 1, vote_count := 1 }

/-- Concrete record: `act1` after one successful "against" vote. -/
def act2 : FastAction :=
  { act1 with votes_against := 1, vote_count := 2 }

/-- Concrete record: `act0` cancelled by its creator. -/
def act0c : FastAction :=
  { act0 with executed := true, result := .Cancelled }

/-- Concrete record: `act0` after one successful "against" vote. -/
def act1b : FastAction :=
  { act0 with votes_against := 1, vote_count := 1 }

/-- Concrete record: `act2` cancelled by its creator. -/
def act2c : FastAction :=
  { act2 with executed := true, result := .Cancelled }

/-- Success characterization of `u32_checked_add`. -/
theorem u32_checked_add_eq_some {a b n : Nat} :
    u32_checked_add a b = some n ↔ a + b ≤ U32_MAX ∧ n = a + b := by
  unfold u32_checked_add
  split <;> simp_all <;> omega

/-- Success characterization of `u64_checked_add`. -/
theorem u64_checked_add_eq_some {a b n : Nat} :
    u64_checked_add a b = some n ↔ a + b ≤ U64_MAX ∧ n = a + b := by
  unfold u64_checked_add
  split <;> simp_all <;> omega

/-- Every successful `create_fast_action` call had valid arguments and returns
exactly the record written by lib.rs lines 46-58. -/
theorem create_fast_action_ok
    {action_id action_hash threshold description_hash creator now bump : Nat} {a : FastAction}
    (h : create_fast_action action_id action_hash threshold description_hash creator now bump =
      Except.ok a) :
    (0 < threshold ∧ threshold ≤ 100) ∧ action_hash ≠ 0 ∧
      now + VOTING_WINDOW_SLOTS ≤ U64_MAX ∧
      a = { action_id := action_id, action_hash := action_hash,
            description_hash := description_hash, creator := creator,
            threshold := threshold, votes_for := 0, votes_against := 0,
            vote_count := 0, created_slot := now,
            deadline_slot := now + VOTING_WINDOW_SLOTS, executed := false,
            result := .Pending, bump := bump } := by
  by_cases h1 : threshold > 0 ∧ threshold ≤ 100 <;>
    by_cases h2 : action_hash = 0 <;>
    by_cases h3 : now + VOTING_WINDOW_SLOTS ≤ U64_MAX <;>
    simp_all [create_fast_action, u64_checked_add]

/-- Under valid arguments, `create_fast_action` succeeds with the record
written by lib.rs lines 46-58. -/
theorem create_fast_action_eq_ok
    (action_id action_hash threshold description_hash creator now bump : Nat)
    (h1 : 0 < threshold) (h2 : threshold ≤ 100) (h3 : action_hash ≠ 0)
    (h4 : now + VOTING_WINDOW_SLOTS ≤ U64_MAX) :
    create_fast_action action_id action_hash threshold description_hash creator now bump =
      Except.ok { action_id := action_id, action_hash := action_hash,
                  description_hash := description_hash, creator := creator,
                  threshold := threshold, votes_for := 0, votes_against := 0,
                  vote_count := 0, created_slot := now,
                  deadline_slot := now + VOTING_WINDOW_SLOTS, executed := false,
                  result := .Pending, bump := bump } := by
  simp [create_fast_action, u64_checked_add, h1, h2, h3, h4]

/-- Every successful `vote_fast` call had its four guards satisfied and
increments exactly one side counter together with `vote_count`. -/
theorem vote_fast_ok
    {a a' : FastAction} {vr : FastVote}
    {actionKey voter voter_commitment now bump : Nat} {vote_value : Bool}
    (h : vote_fast a actionKey voter vote_value voter_commitment now bump =
      Except.ok (a', vr)) :
    a.executed = false ∧ now ≤ a.deadline_slot ∧
      a.vote_count < MAX_VOTES_PER_ACTION ∧ voter_commitment ≠ 0 ∧
      a' = { a with votes_for := a.votes_for + (if vote_value then 1 else 0),
                    votes_against := a.votes_against + (if vote_value then 0 else 1),
                    vote_count := a.vote_count + 1 } ∧
      vr = { fast_action := actionKey, voter := voter,
             voter_commitment := voter_commitment, vote_value := vote_value,
             voted_slot := now, bump := bump } := by
  cases vote_value <;>
    by_cases h1 : a.executed <;>
    by_cases h2 : now ≤ a.deadline_slot <;>
    by_cases h3 : a.vote_count < MAX_VOTES_PER_ACTION <;>
    by_cases h4 : voter_commitment = 0 <;>
    by_cases h5 : a.votes_for + 1 ≤ U32_MAX <;>
    by_cases h6 : a.votes_against + 1 ≤ U32_MAX <;>
    by_cases h7 : a.vote_count + 1 ≤ U32_MAX <;>
    simp_all [vote_fast, u32_checked_add]

/-- Under satisfied guards and non-overflowing counters, `vote_fast`
succeeds and increments the counters as in lib.rs lines 115-120. -/
theorem vote_fast_eq_ok
    (a : FastAction) (actionKey voter voter_commitment now bump : Nat) (vote_value : Bool)
    (h1 : a.executed = false) (h2 : now ≤ a.deadline_slot)
    (h3 : a.vote_count < MAX_VOTES_PER_ACTION) (h4 : voter_commitment ≠ 0)
    (h5 : a.votes_for + 1 ≤ U32_MAX) (h6 : a.votes_against + 1 ≤ U32_MAX)
    (h7 : a.vote_count + 1 ≤ U32_MAX) :
    vote_fast a actionKey voter vote_value voter_commitment now bump =
      Except.ok
        ({ a with votes_for := a.votes_for + (if vote_value then 1 else 0),
                  votes_against := a.votes_against + (if vote_value then 0 else 1),
                  vote_count := a.vote_count + 1 },
         { fast_action := actionKey, voter := voter,
           voter_commitment := voter_commitment, vote_value := vote_value,
           voted_slot := now, bump := bump }) := by
  cases vote_value <;> simp_all [vote_fast, u32_checked_add]

/-- Every successful `tally_and_commit` call had its guards satisfied and
writes exactly the result and executed flag of lib.rs lines 151-156. -/
theorem tally_and_commit_ok {a a' : FastAction} {now : Nat}
    (h : tally_and_commit a now = Except.ok a') :
    a.executed = false ∧ a.deadline_slot < now ∧
      MIN_VOTES_FOR_QUORUM ≤ a.vote_count ∧
      a.votes_for + a.votes_against ≤ U32_MAX ∧
      0 < a.votes_for + a.votes_against ∧
      a' = { a with
             result := if a.threshold ≤ a.votes_for * 100 / (a.votes_for + a.votes_against)
                       then .Passed else .Failed
             executed := true } := by
  by_cases h1 : a.executed <;>
    by_cases h2 : a.deadline_slot < now <;>
    by_cases h3 : MIN_VOTES_FOR_QUORUM ≤ a.vote_count <;>
    by_cases h4 : a.votes_for + a.votes_against ≤ U32_MAX <;>
    by_cases h5 : 0 < a.votes_for + a.votes_against <;>
    first
      | (have h6 : a.votes_for * 100 ≤ U64_MAX := by unfold U32_MAX at h4; unfold U64_MAX; omega
         have h7 : a.votes_for + a.votes_against ≠ 0 := by omega
         simp_all [tally_and_commit, u32_checked_add, u64_checked_mul, u64_checked_div])
      | simp_all [tally_and_commit, u32_checked_add, u64_checked_mul, u64_checked_div]

/-- Under satisfied guards, `tally_and_commit` succeeds and writes the
result computed by lib.rs lines 139-156. -/
theorem tally_and_commit_eq_ok (a : FastAction) (now : Nat)
    (h1 : a.executed = false) (h2 : a.deadline_slot < now)
    (h3 : MIN_VOTES_FOR_QUORUM ≤ a.vote_count)
    (h4 : a.votes_for + a.votes_against ≤ U32_MAX)
    (h5 : 0 < a.votes_for + a.votes_against) :
    tally_and_commit a now =
      Except.ok { a with
                  result := if a.threshold ≤ a.votes_for * 100 / (a.votes_for + a.votes_against)
                            then .Passed else .Failed
                  executed := true } := by
  have h6 : a.votes_for * 100 ≤ U64_MAX := by unfold U32_MAX at h4; unfold U64_MAX; omega
  have h7 : a.votes_for + a.votes_against ≠ 0 := by omega
  have h7a : ¬ (a.votes_for = 0 ∧ a.votes_against = 0) := by omega
  simp_all [tally_and_commit, u32_checked_add, u64_checked_mul, u64_checked_div]
  rw [if_neg (by omega)]

/-- Every successful `cancel_action` call was made by the creator on a
non-executed record and only flips `executed` and `result`. -/
theorem cancel_action_ok {a a' : FastAction} {caller : Nat}
    (h : cancel_action a caller = Except.ok a') :
    a.creator = caller ∧ a.executed = false ∧
      a' = { a with executed := true, result := .Cancelled } := by
  by_cases h1 : a.creator = caller <;>
    by_cases h2 : a.executed <;>
    simp_all [cancel_action]

/-- Counter invariants of reachable records: `vote_count` equals
`votes_for + votes_against` and never exceeds `MAX_VOTES_PER_ACTION`. -/
theorem reachable_counts {a : FastAction} (h : Reachable a) :
    a.vote_count = a.votes_for + a.votes_against ∧
      a.vote_count ≤ MAX_VOTES_PER_ACTION := by
  induction h with
  | created a action_id action_hash threshold description_hash creator now bump h =>
      obtain ⟨-, -, -, ha⟩ := create_fast_action_ok h
      subst ha
      exact ⟨rfl, by simp [MAX_VOTES_PER_ACTION]⟩
  | step a a' hr hs ih =>
      cases hs with
      | vote actionKey voter voter_commitment now bump vote_value vr h =>
          obtain ⟨-, -, hcnt, -, ha', -⟩ := vote_fast_ok h
          subst ha'
          cases vote_value <;> simp_all <;> omega
      | tally now h =>
          obtain ⟨-, -, -, -, -, ha'⟩ := tally_and_commit_ok h
          subst ha'
          simpa using ih
      | cancel caller h =>
          obtain ⟨-, -, ha'⟩ := cancel_action_ok h
          subst ha'
          simpa using ih

/-- Executed-result invariant of reachable records: the `executed` flag is
set exactly when `result` left `Pending`. -/
theorem reachable_executed_iff_result {a : FastAction} (h : Reachable a) :
    a.executed = true ↔ a.result ≠ VoteResult.Pending := by
  induction h with
  | created a action_id action_hash threshold description_hash creator now bump h =>
      obtain ⟨-, -, -, ha⟩ := create_fast_action_ok h
      subst ha
      simp
  | step a a' hr hs ih =>
      cases hs with
      | vote actionKey voter voter_commitment now bump vote_value vr h =>
          obtain ⟨-, -, -, -, ha', -⟩ := vote_fast_ok h
          subst ha'
          simpa using ih
      | tally now h =>
          obtain ⟨-, -, -, -, -, ha'⟩ := tally_and_commit_ok h
          subst ha'
          constructor
          · intro _
            split <;> simp
          · intro _
            rfl
      | cancel caller h =>
          obtain ⟨-, -, ha'⟩ := cancel_action_ok h
          subst ha'
          simp

/-- Counter characterization of a successful cast sequence: the final record
is the initial one with `votes_for` advanced by the number of `true` votes,
`votes_against` by the number of `false` votes, and `vote_count` by the
length of the sequence. -/
theorem castSeq_counts {a b : FastAction} {l : List Bool} (h : CastSeq a l b) :
    b = { a with votes_for := a.votes_for + l.count true,
                 votes_against := a.votes_against + l.count false,
                 vote_count := a.vote_count + l.length } := by
  induction h with
  | nil a => simp
  | cons a a' b v l actionKey voter voter_commitment now bump vr h rest ih =>
      obtain ⟨-, -, -, -, ha', -⟩ := vote_fast_ok h
      subst ha'
      rw [ih]
      cases v <;> simp [List.count_cons] <;> omega

/-- The record `act0` is produced by `create_fast_action`. -/
theorem reach_act0 : Reachable act0 :=
  Reachable.created act0 1 7 50 9 11 0 255 rfl

/-- The record `act2` is reachable: create, one "for" vote, one "against" vote. -/
theorem reach_act2 : Reachable act2 :=
  Reachable.step act1 act2
    (Reachable.step act0 act1 reach_act0
      (Step.vote act0 act1 3 21 5 1 254 true
        { fast_action := 3, voter := 21, voter_commitment := 5, vote_value := true,
          voted_slot := 1, bump := 254 } rfl))
    (Step.vote act1 act2 3 22 6 2 254 false
      { fast_action := 3, voter := 22, voter_commitment := 6, vote_value := false,
        voted_slot := 2, bump := 254 } rfl)

/-- The record `act0c` is reachable: create, then cancel by the creator. -/
theorem reach_act0c : Reachable act0c :=
  Reachable.step act0 act0c reach_act0 (Step.cancel act0 act0c 11 rfl)

/-- C1: for every action record with `executed == false`, `now` strictly
greater than `deadline_slot`, `vote_count ≥ MIN_VOTES_FOR_QUORUM` and
`votes_for + votes_against > 0`, `tally_and_commit` succeeds, sets
`result = Passed` exactly when `floor(votes_for * 100 / total) ≥ threshold`
and `Failed` otherwise, and sets `executed = true`; a tie at exactly
`approval_pct == threshold` passes. -/
theorem claim_tally_finalizes (a : FastAction) (now : Nat)
    (hreach : Reachable a)
    (hexec : a.executed = false)
    (hnow : a.deadline_slot < now)
    (hquorum : MIN_VOTES_FOR_QUORUM ≤ a.vote_count)
    (hpos : 0 < a.votes_for + a.votes_against) :
    tally_and_commit a now =
      Except.ok { a with
                  result := if a.threshold ≤ a.votes_for * 100 / (a.votes_for + a.votes_against)
                            then .Passed else .Failed
                  executed := true } ∧
    (a.votes_for * 100 / (a.votes_for + a.votes_against) = a.threshold →
      tally_and_commit a now =
        Except.ok { a with result := .Passed, executed := true }) := by
  obtain ⟨hc, hm⟩ := reachable_counts hreach
  have h4 : a.votes_for + a.votes_against ≤ U32_MAX := by
    unfold MAX_VOTES_PER_ACTION at hm; unfold U32_MAX; omega
  have hmain := tally_and_commit_eq_ok a now hexec hnow hquorum h4 hpos
  exact ⟨hmain, fun htie => by simpa [htie] using hmain⟩

/-- C1 witness: the reachable two-vote record `act2` (threshold 50, one
vote each way, so a tie at exactly the threshold) finalizes to `Passed`
at slot 76. -/
theorem claim_tally_finalizes_witness :
    Reachable act2 ∧ act2.executed = false ∧ act2.deadline_slot < 76 ∧
    MIN_VOTES_FOR_QUORUM ≤ act2.vote_count ∧
    0 < act2.votes_for + act2.votes_against ∧
    tally_and_commit act2 76 =
      Except.ok { act2 with result := VoteResult.Passed, executed := true } := by
  refine ⟨reach_act2, rfl, by decide, by decide, by decide, ?_⟩
  exact (claim_tally_finalizes act2 76 reach_act2 rfl (by decide) (by decide)
    (by decide)).2 (by decide)

/-- C2: every record reachable through `create_fast_action` followed by any
sequence of successful operations satisfies
`vote_count = votes_for + votes_against`. -/
theorem claim_counter_conservation (a : FastAction) (h : Reachable a) :
    a.vote_count = a.votes_for + a.votes_against :=
  (reachable_counts h).1

/-- C2 witness: the invariant at the concrete reachable record `act2`. -/
theorem claim_counter_conservation_witness :
    Reachable act2 ∧ act2.vote_count = act2.votes_for + act2.votes_against :=
  ⟨reach_act2, claim_counter_conservation act2 reach_act2⟩

/-- C3 counterexample: `act0c` is a reachable record with `executed = true`,
yet a `cancel_action` call against it by a non-creator (caller 99, creator
is 11) fails with `Unauthorized`, not `ActionAlreadyExecuted`: the
creator-identity account constraint is validated before the handler's
`executed` check. -/
theorem claim_executed_terminal_counterexample :
    Reachable act0c ∧ act0c.executed = true ∧
    cancel_action act0c 99 = Except.error FastVoteError.Unauthorized ∧
    cancel_action act0c 99 ≠ Except.error FastVoteError.ActionAlreadyExecuted := by
  refine ⟨reach_act0c, rfl, rfl, ?_⟩
  intro hbad
  rw [show cancel_action act0c 99 = Except.error FastVoteError.Unauthorized from rfl] at hbad
  exact absurd hbad (by simp)

/-- C3 amended: once `executed == true`, every subsequent `vote_fast` and
`tally_and_commit` call fails with `ActionAlreadyExecuted`; `cancel_action`
fails with `ActionAlreadyExecuted` when the caller is the creator and with
`Unauthorized` otherwise; a failing call yields no successor record, so no
field is mutated. -/
theorem claim_executed_terminal (a : FastAction) (hexec : a.executed = true) :
    (∀ actionKey voter vote_value voter_commitment now bump,
        vote_fast a actionKey voter vote_value voter_commitment now bump =
          Except.error FastVoteError.ActionAlreadyExecuted) ∧
    (∀ now, tally_and_commit a now = Except.error FastVoteError.ActionAlreadyExecuted) ∧
    (∀ caller, a.creator = caller →
        cancel_action a caller = Except.error FastVoteError.ActionAlreadyExecuted) ∧
    (∀ caller, a.creator ≠ caller →
        cancel_action a caller = Except.error FastVoteError.Unauthorized) := by
  refine ⟨?_, ?_, ?_, ?_⟩
  · intro actionKey voter vote_value voter_commitment now bump
    simp [vote_fast, hexec]
  · intro now
    simp [tally_and_commit, hexec]
  · intro caller hc
    simp [cancel_action, hc, hexec]
  · intro caller hc
    simp [cancel_action, hc]

/-- C3 witness: the amended statement at the reachable executed record
`act0c` (creator 11). -/
theorem claim_executed_terminal_witness :
    act0c.executed = true ∧
    vote_fast act0c 3 23 true 5 10 254 = Except.error FastVoteError.ActionAlreadyExecuted ∧
    tally_and_commit act0c 100 = Except.error FastVoteError.ActionAlreadyExecuted ∧
    cancel_action act0c 11 = Except.error FastVoteError.ActionAlreadyExecuted ∧
    cancel_action act0c 98 = Except.error FastVoteError.Unauthorized := by
  refine ⟨rfl, ?_, ?_, ?_, ?_⟩
  · exact (claim_executed_terminal act0c rfl).1 3 23 true 5 10 254
  · exact (claim_executed_terminal act0c rfl).2.1 100
  · exact (claim_executed_terminal act0c rfl).2.2.1 11 rfl
  · exact (claim_executed_terminal act0c rfl).2.2.2 98 (by decide)

/-- C4: on a reachable non-executed action with the other cast preconditions
met, a cast at `now == deadline_slot` succeeds while a cast at
`deadline_slot + 1` fails with `VotingEnded`; a finalize at
`now == deadline_slot` fails with `VotingNotEnded`, while at
`deadline_slot + 1` it is never rejected on temporal grounds. -/
theorem claim_deadline_boundary (a : FastAction)
    (hreach : Reachable a) (hexec : a.executed = false)
    (actionKey voter voter_commitment bump : Nat) (vote_value : Bool)
    (hcomm : voter_commitment ≠ 0) (hcnt : a.vote_count < MAX_VOTES_PER_ACTION) :
    (∃ p, vote_fast a actionKey voter vote_value voter_commitment a.deadline_slot bump =
      Except.ok p) ∧
    vote_fast a actionKey voter vote_value voter_commitment (a.deadline_slot + 1) bump =
      Except.error FastVoteError.VotingEnded ∧
    tally_and_commit a a.deadline_slot = Except.error FastVoteError.VotingNotEnded ∧
    tally_and_commit a (a.deadline_slot + 1) ≠ Except.error FastVoteError.VotingNotEnded := by
  obtain ⟨hc, hm⟩ := reachable_counts hreach
  have hf : a.votes_for + 1 ≤ U32_MAX := by
    unfold MAX_VOTES_PER_ACTION at hm; unfold U32_MAX; omega
  have hg : a.votes_against + 1 ≤ U32_MAX := by
    unfold MAX_VOTES_PER_ACTION at hm; unfold U32_MAX; omega
  have hv : a.vote_count + 1 ≤ U32_MAX := by
    unfold MAX_VOTES_PER_ACTION at hm; unfold U32_MAX; omega
  refine ⟨⟨_, vote_fast_eq_ok a actionKey voter voter_commitment a.deadline_slot bump
      vote_value hexec le_rfl hcnt hcomm hf hg hv⟩, ?_, ?_, ?_⟩
  · unfold vote_fast
    rw [if_neg (by simp [hexec]), if_pos (by omega)]
  · unfold tally_and_commit
    rw [if_neg (by simp [hexec]), if_pos (by omega)]
  · unfold tally_and_commit
    rw [if_neg (by simp [hexec]), if_neg (by omega)]
    repeat' split
    all_goals simp

/-- C4 witness: the boundary behavior at the reachable record `act2`
(deadline slot 75). -/
theorem claim_deadline_boundary_witness :
    (∃ p, vote_fast act2 3 44 true 5 act2.deadline_slot 254 = Except.ok p) ∧
    vote_fast act2 3 44 true 5 (act2.deadline_slot + 1) 254 =
      Except.error FastVoteError.VotingEnded ∧
    tally_and_commit act2 act2.deadline_slot = Except.error FastVoteError.VotingNotEnded ∧
    tally_and_commit act2 (act2.deadline_slot + 1) ≠
      Except.error FastVoteError.VotingNotEnded :=
  claim_deadline_boundary act2 reach_act2 rfl 3 44 5 254 true (by decide) (by decide)

/-- C5: two cast sequences over the same action record whose vote-value
lists are permutations of each other (in particular: the same two votes in
either order, and generally any multiset of admitted votes) end in the same
counters, and `tally_and_commit` then yields the same outcome at every
slot - the tally depends only on the final counter values. -/
theorem claim_order_independence (a b b' : FastAction) (l l' : List Bool)
    (h : CastSeq a l b) (h' : CastSeq a l' b') (hperm : l.Perm l') :
    (b.votes_for = b'.votes_for ∧ b.votes_against = b'.votes_against ∧
      b.vote_count = b'.vote_count) ∧
    ∀ now, tally_and_commit b now = tally_and_commit b' now := by
  have hb := castSeq_counts h
  have hb' := castSeq_counts h'
  have hbb : b = b' := by
    rw [hb, hb', hperm.count_eq true, hperm.count_eq false, hperm.length_eq]
  subst hbb
  exact ⟨⟨rfl, rfl, rfl⟩, fun now => rfl⟩

/-- C5 witness: casting [for, against] and [against, for] from `act0` both
reach `act2`, with identical counters and identical tally outcome. -/
theorem claim_order_independence_witness :
    (act2.votes_for = act2.votes_for ∧ act2.votes_against = act2.votes_against ∧
      act2.vote_count = act2.vote_count) ∧
    ∀ now, tally_and_commit act2 now = tally_and_commit act2 now :=
  claim_order_independence act0 act2 act2 [true, false] [false, true]
    (CastSeq.cons act0 act1 act2 true [false] 3 21 5 1 254
      { fast_action := 3, voter := 21, voter_commitment := 5, vote_value := true,
        voted_slot := 1, bump := 254 } rfl
      (CastSeq.cons act1 act2 act2 false [] 3 22 6 2 254
        { fast_action := 3, voter := 22, voter_commitment := 6, vote_value := false,
          voted_slot := 2, bump := 254 } rfl
        (CastSeq.nil act2)))
    (CastSeq.cons act0 act1b act2 false [true] 3 22 6 1 254
      { fast_action := 3, voter := 22, voter_commitment := 6, vote_value := false,
        voted_slot := 1, bump := 254 } rfl
      (CastSeq.cons act1b act2 act2 true [] 3 21 5 2 254
        { fast_action := 3, voter := 21, voter_commitment := 5, vote_value := true,
          voted_slot := 2, bump := 254 } rfl
        (CastSeq.nil act2)))
    (List.Perm.swap false true [])

/-- C6: every reachable record satisfies `executed == true` if and only if
`result != Pending`: creation starts at (false, Pending) and exactly the
operations that leave `Pending` (finalize, cancel) set `executed` in the
same step. -/
theorem claim_executed_iff_result (a : FastAction) (h : Reachable a) :
    a.executed = true ↔ a.result ≠ VoteResult.Pending :=
  reachable_executed_iff_result h

/-- C6 witness: the invariant at the reachable cancelled record `act0c`. -/
theorem claim_executed_iff_result_witness :
    Reachable act0c ∧ (act0c.executed = true ↔ act0c.result ≠ VoteResult.Pending) :=
  ⟨reach_act0c, claim_executed_iff_result act0c reach_act0c⟩

/-- C7: with `threshold` in [1,100] and a non-zero `action_hash`,
`create_fast_action` succeeds and produces a record with all counters zero,
`created_slot = now`, `deadline_slot = now + VOTING_WINDOW_SLOTS`,
`result = Pending` and `executed = false`; when `now + VOTING_WINDOW_SLOTS`
exceeds the u64 range it fails with `SlotOverflow` instead. -/
theorem claim_create_effect
    (action_id action_hash threshold description_hash creator now bump : Nat)
    (h1 : 1 ≤ threshold) (h2 : threshold ≤ 100) (h3 : action_hash ≠ 0) :
    (now + VOTING_WINDOW_SLOTS ≤ U64_MAX →
      create_fast_action action_id action_hash threshold description_hash creator now bump =
        Except.ok { action_id := action_id, action_hash := action_hash,
                    description_hash := description_hash, creator := creator,
                    threshold := threshold, votes_for := 0, votes_against := 0,
                    vote_count := 0, created_slot := now,
                    deadline_slot := now + VOTING_WINDOW_SLOTS, executed := false,
                    result := .Pending, bump := bump }) ∧
    (U64_MAX < now + VOTING_WINDOW_SLOTS →
      create_fast_action action_id action_hash threshold description_hash creator now bump =
        Except.error FastVoteError.SlotOverflow) := by
  constructor
  · intro h4
    exact create_fast_action_eq_ok action_id action_hash threshold description_hash
      creator now bump h1 h2 h3 h4
  · intro h4
    have h5 : ¬ (now + VOTING_WINDOW_SLOTS ≤ U64_MAX) := by omega
    simp [create_fast_action, u64_checked_add, h1, h2, h3, h5]
    omega

/-- C7 witness: creation at slot 0 yields `act0` and creation at the
largest u64 slot overflows. -/
theorem claim_create_effect_witness :
    create_fast_action 1 7 50 9 11 0 255 = Except.ok act0 ∧
    create_fast_action 1 7 50 9 11 U64_MAX 255 = Except.error FastVoteError.SlotOverflow :=
  ⟨(claim_create_effect 1 7 50 9 11 0 255 (by decide) (by decide) (by decide)).1 (by decide),
   (claim_create_effect 1 7 50 9 11 U64_MAX 255 (by decide) (by decide) (by decide)).2
     (by simp [U64_MAX, VOTING_WINDOW_SLOTS])⟩

/-- C8: `create_fast_action` with `threshold == 0` or `threshold > 100`
fails with `InvalidThreshold`; with `threshold` in [1,100] and the other
handler preconditions met (non-zero hash, no clock overflow; duplicate-key
rejection lives in the external record store) it succeeds. -/
theorem claim_threshold_bound
    (action_id action_hash threshold description_hash creator now bump : Nat) :
    ((threshold = 0 ∨ 100 < threshold) →
      create_fast_action action_id action_hash threshold description_hash creator now bump =
        Except.error FastVoteError.InvalidThreshold) ∧
    (1 ≤ threshold → threshold ≤ 100 → action_hash ≠ 0 →
      now + VOTING_WINDOW_SLOTS ≤ U64_MAX →
      (create_fast_action action_id action_hash threshold description_hash creator now bump).isOk =
        true) := by
  constructor
  · intro hbad
    have hth : ¬ (threshold > 0 ∧ threshold ≤ 100) := by omega
    simp [create_fast_action, hth]
  · intro h1 h2 h3 h4
    rw [create_fast_action_eq_ok action_id action_hash threshold description_hash
      creator now bump h1 h2 h3 h4]
    rfl

/-- C8 witness: threshold 0 and threshold 101 fail with `InvalidThreshold`;
threshold 50 succeeds. -/
theorem claim_threshold_bound_witness :
    create_fast_action 1 7 0 9 11 0 255 = Except.error FastVoteError.InvalidThreshold ∧
    create_fast_action 1 7 101 9 11 0 255 = Except.error FastVoteError.InvalidThreshold ∧
    (create_fast_action 1 7 50 9 11 0 255).isOk = true :=
  ⟨(claim_threshold_bound 1 7 0 9 11 0 255).1 (Or.inl rfl),
   (claim_threshold_bound 1 7 101 9 11 0 255).1 (Or.inr (by decide)),
   (claim_threshold_bound 1 7 50 9 11 0 255).2 (by decide) (by decide) (by decide) (by decide)⟩

/-- C9: `cancel_action` succeeds exactly when `executed == false` and the
caller is the creator - the handler takes no clock argument, so there is no
deadline comparison - and on success it sets `executed = true` and
`result = Cancelled` while leaving every other field unchanged. -/
theorem claim_cancel_frame (a : FastAction) (caller : Nat) :
    ((cancel_action a caller).isOk = true ↔ a.executed = false ∧ a.creator = caller) ∧
    (∀ a', cancel_action a caller = Except.ok a' →
      a'.executed = true ∧ a'.result = VoteResult.Cancelled ∧
      a'.action_id = a.action_id ∧ a'.action_hash = a.action_hash ∧
      a'.description_hash = a.description_hash ∧ a'.creator = a.creator ∧
      a'.threshold = a.threshold ∧ a'.votes_for = a.votes_for ∧
      a'.votes_against = a.votes_against ∧ a'.vote_count = a.vote_count ∧
      a'.created_slot = a.created_slot ∧ a'.deadline_slot = a.deadline_slot ∧
      a'.bump = a.bump) := by
  constructor
  · by_cases h1 : a.creator = caller <;>
      by_cases h2 : a.executed <;>
      simp [cancel_action, h1, h2, Except.isOk, Except.toBool]
  · intro a' h
    obtain ⟨-, -, ha'⟩ := cancel_action_ok h
    subst ha'
    exact ⟨rfl, rfl, rfl, rfl, rfl, rfl, rfl, rfl, rfl, rfl, rfl, rfl, rfl⟩

/-- C9 witness: cancelling the reachable record `act2` as its creator (11)
succeeds and yields `act2c`, which differs only in `executed` and `result`. -/
theorem claim_cancel_frame_witness :
    ((cancel_action act2 11).isOk = true ↔ act2.executed = false ∧ act2.creator = 11) ∧
    (act2c.executed = true ∧ act2c.result = VoteResult.Cancelled ∧
      act2c.action_id = act2.action_id ∧ act2c.action_hash = act2.action_hash ∧
      act2c.description_hash = act2.description_hash ∧ act2c.creator = act2.creator ∧
      act2c.threshold = act2.threshold ∧ act2c.votes_for = act2.votes_for ∧
      act2c.votes_against = act2.votes_against ∧ act2c.vote_count = act2.vote_count ∧
      act2c.created_slot = act2.created_slot ∧ act2c.deadline_slot = act2.deadline_slot ∧
      act2c.bump = act2.bump) :=
  ⟨(claim_cancel_frame act2 11).1, (claim_cancel_frame act2 11).2 act2c rfl⟩

/-- C10: on any record satisfying the counter invariants
`vote_count = votes_for + votes_against` and
`vote_count ≤ MAX_VOTES_PER_ACTION`, neither `vote_fast` nor
`tally_and_commit` can return the checked-arithmetic error `VoteOverflow`:
the guarded increments, the widened multiplication by 100 and the
guarded division can never fail there. -/
theorem claim_no_arith_overflow (a : FastAction)
    (hc : a.vote_count = a.votes_for + a.votes_against)
    (hm : a.vote_count ≤ MAX_VOTES_PER_ACTION) :
    (∀ actionKey voter vote_value voter_commitment now bump,
      vote_fast a actionKey voter vote_value voter_commitment now bump ≠
        Except.error FastVoteError.VoteOverflow) ∧
    (∀ now, tally_and_commit a now ≠ Except.error FastVoteError.VoteOverflow) := by
  have hf : a.votes_for + 1 ≤ U32_MAX := by
    unfold MAX_VOTES_PER_ACTION at hm; unfold U32_MAX; omega
  have hg : a.votes_against + 1 ≤ U32_MAX := by
    unfold MAX_VOTES_PER_ACTION at hm; unfold U32_MAX; omega
  have hv : a.vote_count + 1 ≤ U32_MAX := by
    unfold MAX_VOTES_PER_ACTION at hm; unfold U32_MAX; omega
  have hs : a.votes_for + a.votes_against ≤ U32_MAX := by
    unfold MAX_VOTES_PER_ACTION at hm; unfold U32_MAX; omega
  have hmul : a.votes_for * 100 ≤ U64_MAX := by
    unfold MAX_VOTES_PER_ACTION at hm; unfold U64_MAX; omega
  constructor
  · intro actionKey voter vote_value voter_commitment now bump
    cases vote_value <;>
      by_cases h1 : a.executed <;>
      by_cases h2 : now ≤ a.deadline_slot <;>
      by_cases h3 : a.vote_count < MAX_VOTES_PER_ACTION <;>
      by_cases h4 : voter_commitment = 0 <;>
      simp [vote_fast, u32_checked_add, h1, h2, h3, h4, hf, hg, hv]
  · intro now
    by_cases h1 : a.executed <;>
      by_cases h2 : a.deadline_slot < now <;>
      by_cases h3 : MIN_VOTES_FOR_QUORUM ≤ a.vote_count <;>
      by_cases h5 : 0 < a.votes_for + a.votes_against <;>
      first
        | (have h7a : ¬ (a.votes_for = 0 ∧ a.votes_against = 0) := by omega
           simp [tally_and_commit, u32_checked_add, u64_checked_mul, u64_checked_div,
             h1, h2, h3, h5, hs, hmul, h7a])
        | simp [tally_and_commit, u32_checked_add, u64_checked_mul, u64_checked_div,
            h1, h2, h3, h5, hs, hmul]

/-- C10 witness: the no-overflow property at the reachable record `act2`. -/
theorem claim_no_arith_overflow_witness :
    vote_fast act2 3 31 true 5 10 254 ≠ Except.error FastVoteError.VoteOverflow ∧
    tally_and_commit act2 76 ≠ Except.error FastVoteError.VoteOverflow :=
  ⟨(claim_no_arith_overflow act2 rfl (by decide)).1 3 31 true 5 10 254,
   (claim_no_arith_overflow act2 rfl (by decide)).2 76⟩
